import Mathlib

/-!
Verification of the Web-Agent repository's decision-and-evaluation core.

The Python modules under `src/agent` and `src/browser` are shallowly embedded
below: pure functions become Lean functions, the control loop becomes a step
function on an explicit context, and fallible driver calls return `Except`.
-/

set_option linter.unusedVariables false

/-! ## String helpers

Python string operations used by the source, embedded over `List Char`. -/

/-- Python `pat in s` (substring containment). -/
def strContains (s pat : String) : Bool :=
  decide (pat.data <:+: s.data)

/-- Python `s.startswith(pre)`. -/
def strStartsWith (s pre : String) : Bool :=
  List.isPrefixOf pre.data s.data

/-- Python `s.split(":", 1)[1]`: everything after the first colon.
Every call site in the source guards this with a `startswith` check on a
prefix that contains a colon, so the colon always exists there; on a
colon-free string this returns `""`. -/
def afterColon (s : String) : String :=
  String.mk ((s.data.dropWhile (fun c => c ≠ ':')).drop 1)

/-- Python `s.count(pat)` counts non-overlapping occurrences.  This counts
occurrences at every position, which coincides with Python's count for
patterns that cannot overlap themselves, such as the only pattern the
source uses, `"/3."`. -/
def occCount (s pat : String) : Nat :=
  ((List.range s.data.length).filter
    (fun i => List.isPrefixOf pat.data (s.data.drop i))).length

/-- Python `s.lower()`, mapped over the characters.  (`String.toLower`
maps the same function per character; this formulation computes by kernel
reduction.) -/
def strToLower (s : String) : String :=
  String.mk (s.data.map Char.toLower)

/-- Python `s.strip()`: drop leading and trailing whitespace.  (Equivalent
to `String.trim`; this formulation computes by kernel reduction.) -/
def strStrip (s : String) : String :=
  String.mk (((s.data.dropWhile Char.isWhitespace).reverse.dropWhile
    Char.isWhitespace).reverse)

/-- Python `repr` of a list of strings, used only inside observation text. -/
def listRepr (l : List String) : String :=
  "[" ++ String.intercalate ", " (l.map (fun s => "\x27" ++ s ++ "\x27")) ++ "]"

/-! ## Data model (spec §3, `src/agent/perception.py` / `src/browser/driver.py`)

The page-state dictionaries flowing through the loop carry `links` either as
a list of link-text strings (produced by `BrowserDriver._get_links`) or as a
list of `{text, href}` dicts (produced by `perception.observe_page`).  The
consumers dispatch on the runtime type of the first element
(`isinstance(links[0], str)`), i.e. on which homogeneous shape is present;
`LinksField` models that tagged choice. -/

structure Link where
  text : String
  href : String
deriving DecidableEq, Repr

inductive LinksField where
  | strs (l : List String)
  | pairs (l : List Link)
deriving DecidableEq, Repr

/-- The link texts a `LinksField` yields to the decision module
(`decision.filter_actions`: `links` if the first element is a string,
else `[link["text"] for link in links]`; both give `[]` when empty). -/
def linkTexts : LinksField → List String
  | .strs l => l
  | .pairs l => l.map Link.text

structure InputField where
  type : String
  name : String
  placeholder : String
deriving DecidableEq, Repr

/-- One observation snapshot.  `BrowserDriver.get_page_state` omits the
`input_fields` key; that is modelled as the empty list. -/
structure PageState where
  url : String
  title : String
  buttons : List String
  links : LinksField
  input_fields : List InputField
  errors : List String
deriving DecidableEq, Repr

def emptyPage : PageState :=
  { url := "", title := "", buttons := [], links := .strs [],
    input_fields := [], errors := [] }

/-- A chosen action `{action, target, reason}` (`decision.choose_action`). -/
structure ChosenAction where
  action : String
  target : String
  reason : String
deriving DecidableEq, Repr

inductive ResultKind where
  | url_changed
  | error_appeared
  | content_changed
  | no_change
deriving DecidableEq, Repr

structure EvalResult where
  result : ResultKind
  observation : String
  insight : Option String
deriving DecidableEq, Repr

/-! ## Evaluator (`src/agent/evaluator.py`) -/

/-- `evaluator.detect_page_type`. -/
def detect_page_type (url : String) : String :=
  let url_lower := strToLower url
  if strContains url_lower "/download" then "download_page"
  else if strContains url_lower "/genindex" then "general_index"
  else if strContains url_lower "/py-modindex" then "module_index"
  else if strContains url_lower "/tutorial" then "tutorial"
  else if strContains url_lower "/library" then "library_reference"
  else if 2 ≤ occCount url_lower "/3." then "version_docs"
  else "general_page"

/-- Insight text of the `url_changed` branch of
`evaluator.evaluate_action_outcome`. -/
def urlChangeInsight (before_state after_state : PageState) : String :=
  let before_type := detect_page_type before_state.url
  let after_type := detect_page_type after_state.url
  if before_type = after_type ∧ before_type = "version_docs" then
    "Navigation changed version but not content type - exploring version variants"
  else if before_type ≠ after_type then
    "Navigation changed page type from " ++ before_type ++ " to " ++ after_type
      ++ " - meaningful exploration"
  else
    "Navigation within same page type - may indicate redundant exploration"

/-- `evaluator.evaluate_action_outcome`.  The Python sequence of guarded
early returns becomes an if-chain.  `set(after) - set(before)` is rendered
as the after-order list of new labels (same emptiness and membership; the
Python interpolation of a `set` has unspecified element order, so the
`content_changed` observation text fixes one rendering). -/
def evaluate_action_outcome (before_state after_state : PageState)
    (action : ChosenAction) : EvalResult :=
  if before_state.url ≠ after_state.url then
    { result := .url_changed
      observation := "Page navigated from " ++ before_state.url ++ " to "
        ++ after_state.url
      insight := some (urlChangeInsight before_state after_state) }
  else if after_state.errors ≠ [] ∧ before_state.errors = [] then
    { result := .error_appeared
      observation := "Error message appeared: " ++ listRepr after_state.errors
      insight := some ("Action \x27" ++ action.action
        ++ "\x27 triggered validation error - feedback mechanism working") }
  else
    let new_buttons :=
      after_state.buttons.filter (fun b => !(before_state.buttons.contains b))
    if new_buttons ≠ [] then
      { result := .content_changed
        observation := "New buttons appeared: " ++ listRepr new_buttons
        insight := some ("Page updated after \x27" ++ action.action
          ++ "\x27 - dynamic content loaded") }
    else
      { result := .no_change
        observation := "Action \x27" ++ action.action ++ "\x27 on \x27"
          ++ action.target ++ "\x27 produced no visible effect"
        insight := some "No observable change detected - action may have failed or target was incorrect" }

/-! ## Decision module (`src/agent/decision.py`) -/

/-- `decision.filter_actions`: the `action:target` combos already executed. -/
def previous_combos (action_history : List ChosenAction) : List String :=
  action_history.map (fun a => a.action ++ ":" ++ a.target)

/-- The body of the `decision.filter_actions` loop: `true` iff the proposal
survives all three `continue` guards (no repeat, button exists, link exists). -/
def keepProposal (action_history : List ChosenAction) (page_data : PageState)
    (proposal : String) : Bool :=
  if (previous_combos action_history).contains proposal then false
  else if strStartsWith proposal "click_button:"
      && !(page_data.buttons.contains (afterColon proposal)) then false
  else if strStartsWith proposal "click_link:"
      && !((linkTexts page_data.links).contains (afterColon proposal)) then false
  else true

/-- `decision.filter_actions`. -/
def filter_actions (proposals : List String) (action_history : List ChosenAction)
    (page_data : PageState) : List String :=
  proposals.filter (keepProposal action_history page_data)

/-- Heuristic 1 of `decision.choose_action`:
`proposal.startswith("click_link:Python 3.")`. -/
def verPred (proposal : String) : Bool :=
  strStartsWith proposal "click_link:Python 3."

def information_dense_keywords : List String :=
  ["download", "modules", "index", "tutorial", "library"]

/-- Heuristic 2 of `decision.choose_action`: a link whose lowered target
contains an information-dense keyword. -/
def kwPred (proposal : String) : Bool :=
  strStartsWith proposal "click_link:"
    && information_dense_keywords.any
        (fun keyword => strContains (strToLower (afterColon proposal)) keyword)

def linkPred (proposal : String) : Bool := strStartsWith proposal "click_link:"

def buttonPred (proposal : String) : Bool := strStartsWith proposal "click_button:"

def versionReason : String :=
  "Version link selected to compare documentation variants across Python versions"

def defaultReason : String := "Default action from proposals"

/-- The body of `decision.choose_action` after its emptiness guard: each
Python `for`-loop that returns on its first match becomes a `find?`.
`p0` is `filtered_proposals[0]`.  The source contains two further loops
(over buttons "primary CTA" and links "target flow") that are unreachable
because the earlier loops already returned on any button or link candidate;
they are embedded verbatim all the same. -/
def choose_core (filtered : List String) (p0 : String) : Option ChosenAction :=
  match filtered.find? verPred with
  | some p =>
    some { action := "click_link"
           target := afterColon p
           reason := versionReason }
  | none =>
  match filtered.find? kwPred with
  | some p =>
    some { action := "click_link"
           target := afterColon p
           reason := "Navigation to \x27" ++ afterColon p
             ++ "\x27 increases information density" }
  | none =>
  match filtered.find? linkPred with
  | some p =>
    some { action := "click_link"
           target := afterColon p
           reason := "Link \x27" ++ afterColon p
             ++ "\x27 selected for documentation exploration" }
  | none =>
  match filtered.find? buttonPred with
  | some p =>
    some { action := "click_button"
           target := afterColon p
           reason := "Button \x27" ++ afterColon p
             ++ "\x27 selected as available action" }
  | none =>
  match filtered.find? buttonPred with
  | some p =>
    some { action := "click_button"
           target := afterColon p
           reason := "Button \x27" ++ afterColon p
             ++ "\x27 appears to be a primary CTA" }
  | none =>
  match filtered.find? linkPred with
  | some p =>
    some { action := "click_link"
           target := afterColon p
           reason := "Link \x27" ++ afterColon p ++ "\x27 likely leads to target flow" }
  | none =>
  if strStartsWith p0 "observe_page:" then none
  else some { action := p0, target := "unknown", reason := defaultReason }

/-- `decision.choose_action`.  `page_data` is read only into the unused
local `current_url` in the source and does not influence the choice. -/
def choose_action (filtered_proposals : List String) (page_data : PageState) :
    Option ChosenAction :=
  match filtered_proposals with
  | [] => none
  | p0 :: rest => choose_core (p0 :: rest) p0

/-! ## State machine (`src/agent/state.py`) -/

inductive AgentState where
  | idle
  | observe
  | decide
  | act
  | evaluate
  | stop
deriving DecidableEq, Repr

/-- `state.StateContext`.  The Python code reuses `action_result` first for
the `{before, after, success}` record set in `_act` and then overwrites it
with the evaluation in `_evaluate`; the two uses are modelled as the
separate fields `pending_result` and `action_result`. -/
structure StateContext where
  current_state : AgentState
  page_data : Option PageState := none
  chosen_action : Option ChosenAction := none
  pending_result : Option (PageState × PageState × Bool) := none
  action_result : Option EvalResult := none
  action_count : Nat := 0
  action_history : List ChosenAction := []
deriving Repr

/-- `StateContext.log_action`: append to history, bump the counter. -/
def log_action (ctx : StateContext) (action : ChosenAction) : StateContext :=
  { ctx with action_history := ctx.action_history ++ [action]
             action_count := ctx.action_count + 1 }

/-- `StateContext.should_stop`: stop once 6 actions were executed. -/
def should_stop (ctx : StateContext) : Bool :=
  if 6 ≤ ctx.action_count then true else false

/-! ## Control loop (`src/agent/orchestrator.py`)

The external collaborators (browser driver, proposal engine) are an
arbitrary environment; quantifying over it quantifies over every sequence
of observed page states, proposal lists and click outcomes. -/

structure DriverEnv where
  observe_state : StateContext → PageState
  propose : PageState → List ChosenAction → List String
  act_success : StateContext → Bool
  after_state : StateContext → PageState

/-- `decision.decide_next_action` with the proposal engine supplied by the
environment: propose, filter, choose. -/
def decide_next_action (env : DriverEnv) (page_data : PageState)
    (action_history : List ChosenAction) : Option ChosenAction :=
  choose_action (filter_actions (env.propose page_data action_history)
    action_history page_data) page_data

def defaultChosen : ChosenAction := { action := "", target := "", reason := "" }

/-- One pass through the body of `Orchestrator.run`'s `while` loop.
`page_data` is always set when DECIDE or ACT is reached (OBSERVE precedes
them) and `chosen_action`/`pending_result` are always set when ACT/EVALUATE
is reached, so the `getD` defaults are never read from a reachable context.
A context in IDLE or STOP matches no branch of the loop body and is
returned unchanged. -/
def step (env : DriverEnv) (ctx : StateContext) : StateContext :=
  match ctx.current_state with
  | .observe =>
    { ctx with page_data := some (env.observe_state ctx)
               current_state := .decide }
  | .decide =>
    let pd := ctx.page_data.getD emptyPage
    match decide_next_action env pd ctx.action_history with
    | none => { ctx with current_state := .stop }
    | some a => { ctx with chosen_action := some a, current_state := .act }
  | .act =>
    let before := ctx.page_data.getD emptyPage
    let success := env.act_success ctx
    let after := env.after_state ctx
    let ctx1 := { ctx with page_data := some after
                           pending_result := some (before, after, success) }
    let ctx2 := log_action ctx1 (ctx.chosen_action.getD defaultChosen)
    { ctx2 with current_state := .evaluate }
  | .evaluate =>
    let ev := match ctx.pending_result, ctx.chosen_action with
      | some (b, a, _), some ch => some (evaluate_action_outcome b a ch)
      | _, _ => none
    let ctx1 := { ctx with action_result := ev }
    if should_stop ctx1 then { ctx1 with current_state := .stop }
    else { ctx1 with current_state := .observe }
  | .idle => ctx
  | .stop => ctx

/-- The context at the top of the loop: `run` transitions IDLE → OBSERVE
after the driver opens the start URL. -/
def initCtx : StateContext := { current_state := .observe }

/-! ### `Orchestrator.run` / `Orchestrator._save_logs`

`run` wraps the loop in `try ... finally: self.driver.close()`, with
`_save_logs()` as the last statement *inside* the `try`; exceptions from
`open` or from the loop body are modelled as `Except.error`. -/

/-- The insight trace: `{action, evaluation, step}` triples. -/
abbrev InsightEntry := ChosenAction × EvalResult × Nat

structure LogData where
  start_url : String
  total_actions : Nat
  final_url : Option String
  action_history : List ChosenAction
  insights : List InsightEntry
deriving DecidableEq, Repr

/-- `Orchestrator._save_logs`: the record serialized to `logs/run_log.json`. -/
def save_logs (start_url : String) (ctx : StateContext)
    (insights : List InsightEntry) : LogData :=
  { start_url := start_url
    total_actions := ctx.action_count
    final_url := ctx.page_data.map PageState.url
    action_history := ctx.action_history
    insights := insights }

structure RunOutcome where
  outcome : Except String Unit
  closed : Bool
  trace : Option LogData
deriving Repr

/-- `Orchestrator.run`: open the start URL, run the loop to completion,
then `_save_logs()` — all inside the `try`; the `finally` always invokes
`driver.close()`.  `openRes` is the driver's `open` outcome and `loopRes`
the loop's (final context and accumulated insights, or the exception that
aborted it). -/
def orchestrator_run (start_url : String) (openRes : Except String Unit)
    (loopRes : Except String (StateContext × List InsightEntry)) : RunOutcome :=
  match openRes with
  | .error e => { outcome := .error e, closed := true, trace := none }
  | .ok _ =>
    match loopRes with
    | .error e => { outcome := .error e, closed := true, trace := none }
    | .ok (ctx, insights) =>
      { outcome := .ok ()
        closed := true
        trace := some (save_logs start_url ctx insights) }

/-! ## Browser driver (`src/browser/driver.py`)

A raw page models what Playwright hands the driver: element inner texts and
attributes, each extraction fallible (`Except.error` = a raised exception). -/

/-- An anchor element: its inner text and `href` attribute. -/
structure Anchor where
  text : String
  href : String
deriving DecidableEq, Repr

structure RawPage where
  url : String
  titleRes : Except String String
  buttonTextsRes : Except String (List String)
  anchorsRes : Except String (List Anchor)
  bodyTextRes : Except String String
deriving Repr

/-- `[t.strip() for t in ts if t.strip()]`: strip, keep non-empty. -/
def cleanTexts (ts : List String) : List String :=
  ts.filterMap (fun t => if strStrip t = "" then none else some (strStrip t))

/-- `BrowserDriver._get_buttons`: no exception handling — a failing
extraction propagates. -/
def driver_get_buttons (p : RawPage) : Except String (List String) :=
  p.buttonTextsRes.map cleanTexts

/-- `BrowserDriver._get_links`: link *texts* only (`a.inner_text()`, the
`href` attribute is never read), truncated to 20 after dropping empties;
no exception handling. -/
def driver_get_links (p : RawPage) : Except String (List String) :=
  p.anchorsRes.map (fun anchors => (cleanTexts (anchors.map Anchor.text)).take 20)

/-- `BrowserDriver._get_errors`: the only guarded helper — its bare
`except:` turns any failure into `[]`. -/
def driver_get_errors (p : RawPage) : List String :=
  match p.bodyTextRes with
  | .ok body =>
    ["error", "invalid", "failed"].filter (fun k => strContains (strToLower body) k)
  | .error _ => []

/-- `BrowserDriver.get_page_state`: builds the dict in source order
(url, title, buttons, links, errors); the first raising sub-extraction
aborts the whole call. -/
def driver_get_page_state (p : RawPage) : Except String PageState := do
  let t ← p.titleRes
  let bs ← driver_get_buttons p
  let ls ← driver_get_links p
  pure { url := p.url
         title := t
         buttons := bs
         links := .strs ls
         input_fields := []
         errors := driver_get_errors p }

/-- The anchors a raw page exposes, or `[]` if the extraction fails. -/
def pageAnchors (p : RawPage) : List Anchor :=
  match p.anchorsRes with
  | .ok anchors => anchors
  | .error _ => []

/-- Modelled from the spec (§3): the `links` field as the specification
describes it — "ordered sequence of \x7btext, href\x7d pairs, capped at a
fixed maximum count, e.g. 20": the page's anchor pairs in order, capped at
20.  Used to compare the spec's shape with what the driver produces. -/
def spec_links (p : RawPage) : List Anchor :=
  (pageAnchors p).take 20

/-! ## Shared lemmas -/

/-- The `content_changed` test: the set difference of button labels is
non-empty iff some after-button is not a before-button. -/
theorem newButtons_ne_nil_iff (before_state after_state : PageState) :
    after_state.buttons.filter
        (fun b => !(before_state.buttons.contains b)) ≠ [] ↔
      ∃ b ∈ after_state.buttons, b ∉ before_state.buttons := by
  simp [List.filter_eq_nil_iff]

/-- C1: `evaluate_action_outcome` is a deterministic, total function over
(before, after, action) whose `result` is exactly the four-way priority
chain: `url_changed` when the URLs differ; else `error_appeared` when
after-errors are non-empty and before-errors empty; else `content_changed`
when the set of after-buttons minus before-buttons is non-empty; else
`no_change` — and it always returns exactly one of the four kinds. -/
theorem evaluate_action_outcome_total_priority
    (before_state after_state : PageState) (action : ChosenAction) :
    ((evaluate_action_outcome before_state after_state action).result =
      if before_state.url ≠ after_state.url then .url_changed
      else if after_state.errors ≠ [] ∧ before_state.errors = [] then .error_appeared
      else if ∃ b ∈ after_state.buttons, b ∉ before_state.buttons then .content_changed
      else .no_change)
    ∧ ((evaluate_action_outcome before_state after_state action).result = .url_changed
      ∨ (evaluate_action_outcome before_state after_state action).result = .error_appeared
      ∨ (evaluate_action_outcome before_state after_state action).result = .content_changed
      ∨ (evaluate_action_outcome before_state after_state action).result = .no_change) := by
  constructor
  · unfold evaluate_action_outcome
    split_ifs with h1 h2 h3 <;>
      simp_all [newButtons_ne_nil_iff before_state after_state]
  · cases h : (evaluate_action_outcome before_state after_state action).result <;> simp

/-- C2: no-repeat invariant — a candidate whose string equals the
`action:target` encoding of some history entry never survives
`filter_actions`. -/
theorem filter_actions_no_repeat (proposals : List String)
    (action_history : List ChosenAction) (page_data : PageState) (c : String)
    (hc : c ∈ previous_combos action_history) :
    c ∉ filter_actions proposals action_history page_data := by
  intro hmem
  rcases List.mem_filter.mp hmem with ⟨-, hkeep⟩
  simp [keepProposal] at hkeep
  exact hkeep.1 hc

def histW : List ChosenAction :=
  [{ action := "click_link", target := "Tutorial", reason := "explore" }]

/-- Witness for C2 at a concrete repeat of `click_link:Tutorial`. -/
theorem filter_actions_no_repeat_witness :
    "click_link:Tutorial" ∈ previous_combos histW ∧
      "click_link:Tutorial" ∉
        filter_actions ["click_link:Tutorial", "click_link:Download"] histW emptyPage :=
  ⟨by decide, filter_actions_no_repeat _ _ _ _ (by decide)⟩

/-- C5: `filter_actions` is idempotent — re-filtering an already-filtered
list with the same history and page state removes nothing further. -/
theorem filter_actions_idem (proposals : List String)
    (action_history : List ChosenAction) (page_data : PageState) :
    filter_actions (filter_actions proposals action_history page_data)
        action_history page_data =
      filter_actions proposals action_history page_data := by
  simp [filter_actions, List.filter_filter, Bool.and_self]

/-- Spec §4.2(a): a target of the version-identifier form `"Python 3.<n>"`. -/
def versionTarget (t : String) : Prop :=
  ∃ d : String, d ≠ "" ∧ (∀ ch ∈ d.data, ch.isDigit) ∧ t = "Python 3." ++ d

/-- C4: the version heuristic outranks the keyword heuristic — whenever the
filtered list holds a `click_link` candidate with a version-identifier
target and a `click_link` candidate matching an information-dense keyword,
`choose_action` returns the (first) version candidate, with the
version-heuristic reason. -/
theorem choose_action_version_first (filtered : List String)
    (page_data : PageState)
    (hv : ∃ t, versionTarget t ∧ ("click_link:" ++ t) ∈ filtered)
    (hk : ∃ q ∈ filtered, kwPred q = true) :
    ∃ p, filtered.find? verPred = some p ∧ verPred p = true ∧
      choose_action filtered page_data =
        some { action := "click_link", target := afterColon p
               reason := versionReason } := by
  obtain ⟨t, ⟨d, hd, hdig, ht⟩, hmem⟩ := hv
  have hver : verPred ("click_link:" ++ t) = true := by
    subst ht
    unfold verPred strStartsWith
    rw [List.isPrefixOf_iff_prefix]
    have hdata : ("click_link:" ++ ("Python 3." ++ d)).data
        = "click_link:Python 3.".data ++ d.data := by
      simp [String.data_append]
    rw [hdata]
    exact List.prefix_append _ _
  have hsome : (filtered.find? verPred).isSome := by
    rw [List.find?_isSome]
    exact ⟨_, hmem, hver⟩
  obtain ⟨p, hp⟩ := Option.isSome_iff_exists.mp hsome
  refine ⟨p, hp, List.find?_some hp, ?_⟩
  cases filtered with
  | nil => cases hmem
  | cons p0 rest => simp [choose_action, choose_core, hp]

/-- Witness for C4, spec Scenario D: filtered candidates
`["click_link:Python 3.13", "click_link:Download"]` select target
`"Python 3.13"`. -/
theorem choose_action_version_first_witness :
    choose_action ["click_link:Python 3.13", "click_link:Download"] emptyPage =
      some { action := "click_link", target := "Python 3.13"
             reason := versionReason } := by
  obtain ⟨p, hp, -, hc⟩ :=
    choose_action_version_first
      ["click_link:Python 3.13", "click_link:Download"] emptyPage
      ⟨"Python 3.13", ⟨"13", by decide, by decide, by decide⟩, by decide⟩
      ⟨"click_link:Download", by decide, by decide⟩
  have hfind : (["click_link:Python 3.13", "click_link:Download"]).find? verPred
      = some "click_link:Python 3.13" := by decide
  rw [hfind] at hp
  cases hp
  have ha : afterColon "click_link:Python 3.13" = "Python 3.13" := by decide
  rw [ha] at hc
  exact hc

/-- A candidate that is not a `click_link:` candidate is not a version
candidate either (`"click_link:"` is a prefix of `"click_link:Python 3."`). -/
theorem verPred_false_of_not_link (p : String)
    (h : strStartsWith p "click_link:" = false) : verPred p = false := by
  unfold verPred strStartsWith at *
  rw [Bool.eq_false_iff] at h ⊢
  intro hcon
  apply h
  rw [List.isPrefixOf_iff_prefix] at hcon ⊢
  exact List.IsPrefix.trans (by decide) hcon

/-- C8 counterexample: when the filtered list is
`["observe_page:done", "wait:5"]` no link or button heuristic fires and the
`observe_page` marker is not the *sole* remaining candidate (the list has
two entries), yet `choose_action` returns `none` rather than the generic
fallback with target `"unknown"` — the source inspects only the *first*
candidate. -/
theorem choose_action_terminal_counterexample :
    choose_action ["observe_page:done", "wait:5"] emptyPage = none ∧
      ["observe_page:done", "wait:5"].length ≠ 1 := by
  constructor
  · decide
  · decide

/-- C8 (amended): whenever no link or button heuristic selects a candidate,
`choose_action` returns `none` if the *first* remaining filtered candidate
is an `observe_page` marker, and otherwise returns the first remaining
candidate as a generic fallback with target `"unknown"` and a non-empty
reason. -/
theorem choose_action_terminal_rule (filtered : List String)
    (page_data : PageState) (p0 : String) (rest : List String)
    (hf : filtered = p0 :: rest)
    (hnl : ∀ p ∈ filtered, strStartsWith p "click_link:" = false)
    (hnb : ∀ p ∈ filtered, strStartsWith p "click_button:" = false) :
    choose_action filtered page_data =
      (if strStartsWith p0 "observe_page:" = true then none
       else some { action := p0, target := "unknown", reason := defaultReason }) ∧
      defaultReason ≠ "" := by
  subst hf
  have hver : (p0 :: rest).find? verPred = none := by
    rw [List.find?_eq_none]
    intro x hx
    simp [verPred_false_of_not_link x (hnl x hx)]
  have hkw : (p0 :: rest).find? kwPred = none := by
    rw [List.find?_eq_none]
    intro x hx
    simp [kwPred, hnl x hx]
  have hlink : (p0 :: rest).find? linkPred = none := by
    rw [List.find?_eq_none]
    intro x hx
    simp [linkPred, hnl x hx]
  have hbtn : (p0 :: rest).find? buttonPred = none := by
    rw [List.find?_eq_none]
    intro x hx
    simp [buttonPred, hnb x hx]
  refine ⟨?_, by decide⟩
  simp [choose_action, choose_core, hver, hkw, hlink, hbtn]

/-- Witness for C8 (amended) at the singleton list `["foo:bar"]`: the first
(and only) candidate is not an `observe_page` marker, so the generic
fallback with target `"unknown"` is returned. -/
theorem choose_action_terminal_rule_witness :
    choose_action ["foo:bar"] emptyPage =
      some { action := "foo:bar", target := "unknown", reason := defaultReason } := by
  have h := choose_action_terminal_rule ["foo:bar"] emptyPage "foo:bar" [] rfl
    (by decide) (by decide)
  rw [h.1]
  decide

/-- C6 counterexample: a run whose initial navigation succeeded (the
browser was acquired) and whose loop was then aborted by an error does
invoke `close` but writes *no* trace — `_save_logs()` sits inside the
`try` body after the loop, so an abort skips it. -/
theorem orchestrator_run_abort_counterexample :
    (orchestrator_run "https://docs.python.org" (.ok ()) (.error "boom")).closed
        = true ∧
      (orchestrator_run "https://docs.python.org" (.ok ()) (.error "boom")).trace
        = none :=
  ⟨rfl, rfl⟩

/-- C6 (amended): `close` is invoked on every run exit, success or failure;
the trace — carrying the start URL, total action count, final URL, full
action history and insight trace — is written exactly when both the initial
navigation and the loop complete without error.  A run aborted by an error
after start still releases the driver but skips the trace write. -/
theorem orchestrator_run_release_and_trace (start_url : String)
    (openRes : Except String Unit)
    (loopRes : Except String (StateContext × List InsightEntry)) :
    (orchestrator_run start_url openRes loopRes).closed = true ∧
      (orchestrator_run start_url openRes loopRes).trace =
        (match openRes, loopRes with
         | .ok _, .ok (ctx, insights) =>
           some { start_url := start_url
                  total_actions := ctx.action_count
                  final_url := ctx.page_data.map PageState.url
                  action_history := ctx.action_history
                  insights := insights }
         | _, _ => none) := by
  rcases openRes with e | u <;> rcases loopRes with e2 | ⟨ctx, insights⟩ <;>
    simp [orchestrator_run, save_logs]

def rawPageButtonsFail : RawPage :=
  { url := "https://docs.python.org"
    titleRes := .ok "Python Docs"
    buttonTextsRes := .error "TimeoutError"
    anchorsRes := .ok []
    bodyTextRes := .ok "welcome" }

/-- C7 counterexample: a page whose button extraction fails makes
`get_page_state` propagate the failure instead of returning a Page State
with an empty button list — only the errors helper is guarded in the
driver. -/
theorem driver_get_page_state_raises_counterexample :
    driver_get_page_state rawPageButtonsFail = .error "TimeoutError" := rfl

/-- C7 (amended): `get_page_state` substitutes best-effort partial data
(the empty list) only for a failing *errors* sub-extraction; a failure
while extracting the title, buttons or links propagates to the caller, in
source order. -/
theorem driver_get_page_state_partial (p : RawPage) :
    (driver_get_page_state p =
      (match p.titleRes with
       | .error e => .error e
       | .ok t =>
         match p.buttonTextsRes with
         | .error e => .error e
         | .ok bts =>
           match p.anchorsRes with
           | .error e => .error e
           | .ok anchors =>
             .ok { url := p.url
                   title := t
                   buttons := cleanTexts bts
                   links := .strs ((cleanTexts (anchors.map Anchor.text)).take 20)
                   input_fields := []
                   errors := driver_get_errors p }))
    ∧ (∀ e, driver_get_errors { p with bodyTextRes := .error e } = []) := by
  constructor
  · rcases hp : p.titleRes with e | t <;>
      rcases hb : p.buttonTextsRes with e2 | bts <;>
      rcases ha : p.anchorsRes with e3 | anchors <;>
      simp [driver_get_page_state, driver_get_buttons, driver_get_links,
        hp, hb, ha, Except.map, Except.bind, bind, pure, Except.pure]
  · intro e
    rfl

def rawPageHrefA : RawPage :=
  { url := "u"
    titleRes := .ok "T"
    buttonTextsRes := .ok []
    anchorsRes := .ok [{ text := "Download", href := "/d1" }]
    bodyTextRes := .ok "b" }

def rawPageHrefB : RawPage :=
  { url := "u"
    titleRes := .ok "T"
    buttonTextsRes := .ok []
    anchorsRes := .ok [{ text := "Download", href := "/d2" }]
    bodyTextRes := .ok "b" }

/-- C9 counterexample: two pages that differ only in an anchor's `href`
produce *identical* Observe-step Page States, while the spec-modelled
`{text, href}` link sequences differ — the Observe step
(`BrowserDriver.get_page_state` via `_get_links`) records link texts only,
not `{text, href}` pairs. -/
theorem observe_links_counterexample :
    driver_get_page_state rawPageHrefA = driver_get_page_state rawPageHrefB ∧
      spec_links rawPageHrefA ≠ spec_links rawPageHrefB := by
  constructor
  · rfl
  · decide

/-- C9 (amended): every Page State produced by the Observe step has its
`links` field as an ordered sequence of link-*text* strings — each the
stripped inner text of one of the page's anchors, the `href` attribute is
not captured — capped at a fixed maximum of 20 entries. -/
theorem observe_links_texts_capped (p : RawPage) (st : PageState)
    (h : driver_get_page_state p = .ok st) :
    ∃ ls, st.links = .strs ls ∧ ls.length ≤ 20 ∧
      ∀ t ∈ ls, ∃ a ∈ pageAnchors p, t = strStrip a.text := by
  rcases hp : p.titleRes with e | t <;>
    rcases hb : p.buttonTextsRes with e2 | bts <;>
    rcases ha : p.anchorsRes with e3 | anchors <;>
    simp [driver_get_page_state, driver_get_buttons, driver_get_links,
      hp, hb, ha, Except.map, Except.bind, bind, pure, Except.pure] at h
  refine ⟨(cleanTexts (anchors.map Anchor.text)).take 20, ?_, ?_, ?_⟩
  · rw [← h]
  · exact List.length_take_le 20 _
  · intro x hx
    have hx2 := List.mem_of_mem_take hx
    rcases List.mem_filterMap.mp hx2 with ⟨t0, ht0, heq⟩
    rcases List.mem_map.mp ht0 with ⟨a, hamem, rfl⟩
    refine ⟨a, ?_, ?_⟩
    · simpa [pageAnchors, ha] using hamem
    · by_cases hz : strStrip a.text = "" <;> simp [cleanTexts, hz] at heq
      exact heq.symm

def rawPageW : RawPage :=
  { url := "u"
    titleRes := .ok "T"
    buttonTextsRes := .ok ["OK"]
    anchorsRes := .ok [{ text := " Tutorial ", href := "/t" }]
    bodyTextRes := .ok "quiet" }

def observedW : PageState :=
  { url := "u", title := "T", buttons := ["OK"], links := .strs ["Tutorial"],
    input_fields := [], errors := [] }

/-- Witness for C9 (amended) on a concrete page. -/
theorem observe_links_texts_capped_witness :
    driver_get_page_state rawPageW = .ok observedW ∧
      (∃ ls, observedW.links = .strs ls ∧ ls.length ≤ 20 ∧
        ∀ t ∈ ls, ∃ a ∈ pageAnchors rawPageW, t = strStrip a.text) :=
  ⟨rfl, observe_links_texts_capped rawPageW observedW rfl⟩

/-! ## Control-loop invariants (for C3 and C10) -/

/-- Loop invariant: at OBSERVE/DECIDE/ACT at most 5 actions were executed,
never more than 6 in total, and the loop body is never entered at IDLE
(`run` moves to OBSERVE before the loop). -/
def ctrlInv (ctx : StateContext) : Prop :=
  ((ctx.current_state = .observe ∨ ctx.current_state = .decide ∨
      ctx.current_state = .act) → ctx.action_count ≤ 5)
    ∧ ctx.action_count ≤ 6
    ∧ ctx.current_state ≠ .idle

/-- Position of a state along one OBSERVE → DECIDE → ACT → EVALUATE cycle
(the action counter increases at ACT). -/
def stateRank : AgentState → Nat
  | .act => 0
  | .decide => 1
  | .observe => 2
  | .evaluate => 3
  | .stop => 0
  | .idle => 4

/-- Termination measure of the loop. -/
def meas (ctx : StateContext) : Nat :=
  4 * (6 - ctx.action_count) + stateRank ctx.current_state

theorem ctrlInv_init : ctrlInv initCtx := by
  refine ⟨fun _ => ?_, ?_, ?_⟩ <;> simp [initCtx]

theorem step_preserves_inv (env : DriverEnv) (ctx : StateContext)
    (h : ctrlInv ctx) : ctrlInv (step env ctx) := by
  obtain ⟨h1, h2, h3⟩ := h
  cases hs : ctx.current_state
  case idle => exact absurd hs h3
  case stop =>
    have hstep : step env ctx = ctx := by simp [step, hs]
    rw [hstep]
    exact ⟨h1, h2, h3⟩
  case observe =>
    have hstep : step env ctx =
        { ctx with page_data := some (env.observe_state ctx)
                   current_state := .decide } := by
      simp [step, hs]
    rw [hstep]
    exact ⟨fun _ => h1 (Or.inl hs), h2, by simp⟩
  case decide =>
    rcases hd : decide_next_action env (ctx.page_data.getD emptyPage)
        ctx.action_history with _ | a
    · have hstep : step env ctx = { ctx with current_state := .stop } := by
        simp [step, hs, hd]
      rw [hstep]
      exact ⟨by simp, h2, by simp⟩
    · have hstep : step env ctx =
          { ctx with chosen_action := some a, current_state := .act } := by
        simp [step, hs, hd]
      rw [hstep]
      exact ⟨fun _ => h1 (Or.inr (Or.inl hs)), h2, by simp⟩
  case act =>
    have hc := h1 (Or.inr (Or.inr hs))
    have hcount : (step env ctx).action_count = ctx.action_count + 1 := by
      simp [step, hs, log_action]
    have hstate : (step env ctx).current_state = .evaluate := by
      simp [step, hs, log_action]
    refine ⟨fun hor => ?_, ?_, ?_⟩
    · simp [hstate] at hor
    · omega
    · simp [hstate]
  case evaluate =>
    by_cases h6 : 6 ≤ ctx.action_count
    · have hstate : (step env ctx).current_state = .stop := by
        simp [step, hs, should_stop, h6]
      have hcount : (step env ctx).action_count = ctx.action_count := by
        simp [step, hs, should_stop, h6]
      refine ⟨fun hor => ?_, by omega, by simp [hstate]⟩
      simp [hstate] at hor
    · have hstate : (step env ctx).current_state = .observe := by
        simp [step, hs, should_stop, h6]
      have hcount : (step env ctx).action_count = ctx.action_count := by
        simp [step, hs, should_stop, h6]
      exact ⟨fun _ => by omega, by omega, by simp [hstate]⟩

theorem stop_absorb (env : DriverEnv) (ctx : StateContext)
    (h : ctx.current_state = .stop) : step env ctx = ctx := by
  simp [step, h]

theorem step_stop_or_meas_lt (env : DriverEnv) (ctx : StateContext)
    (h : ctrlInv ctx) (hns : ctx.current_state ≠ .stop) :
    (step env ctx).current_state = .stop ∨ meas (step env ctx) < meas ctx := by
  obtain ⟨h1, h2, h3⟩ := h
  cases hs : ctx.current_state
  case idle => exact absurd hs h3
  case stop => exact absurd hs hns
  case observe =>
    right
    have hc := h1 (Or.inl hs)
    have hstate : (step env ctx).current_state = .decide := by simp [step, hs]
    have hcount : (step env ctx).action_count = ctx.action_count := by
      simp [step, hs]
    simp [meas, hstate, hcount, hs, stateRank]
  case decide =>
    rcases hd : decide_next_action env (ctx.page_data.getD emptyPage)
        ctx.action_history with _ | a
    · left
      simp [step, hs, hd]
    · right
      have hstate : (step env ctx).current_state = .act := by simp [step, hs, hd]
      have hcount : (step env ctx).action_count = ctx.action_count := by
        simp [step, hs, hd]
      simp [meas, hstate, hcount, hs, stateRank]
  case act =>
    right
    have hc := h1 (Or.inr (Or.inr hs))
    have hstate : (step env ctx).current_state = .evaluate := by
      simp [step, hs, log_action]
    have hcount : (step env ctx).action_count = ctx.action_count + 1 := by
      simp [step, hs, log_action]
    simp [meas, hstate, hcount, hs, stateRank]
    omega
  case evaluate =>
    by_cases h6 : 6 ≤ ctx.action_count
    · left
      simp [step, hs, should_stop, h6]
    · right
      have hstate : (step env ctx).current_state = .observe := by
        simp [step, hs, should_stop, h6]
      have hcount : (step env ctx).action_count = ctx.action_count := by
        simp [step, hs, should_stop, h6]
      simp [meas, hstate, hcount, hs, stateRank]

theorem reach_stop (env : DriverEnv) :
    ∀ (k : Nat) (ctx : StateContext), ctrlInv ctx →
      (ctx.current_state = .stop ∨ meas ctx ≤ k) →
      ((step env)^[k] ctx).current_state = .stop := by
  intro k
  induction k with
  | zero =>
    intro ctx hinv hd
    obtain ⟨h1, h2, h3⟩ := hinv
    rcases hd with h | h
    · simpa using h
    · cases hs : ctx.current_state
      case stop => simpa using hs
      case idle => exact absurd hs h3
      case observe => simp [meas, hs, stateRank] at h
      case decide => simp [meas, hs, stateRank] at h
      case evaluate => simp [meas, hs, stateRank] at h
      case act =>
        have hc := h1 (Or.inr (Or.inr hs))
        simp [meas, hs, stateRank] at h
        omega
  | succ k ih =>
    intro ctx hinv hd
    rw [Function.iterate_succ_apply]
    by_cases hs : ctx.current_state = .stop
    · rw [stop_absorb env ctx hs]
      exact ih ctx hinv (Or.inl hs)
    · have hinv2 : ctrlInv (step env ctx) := step_preserves_inv env ctx hinv
      rcases hd with h | h
      · exact absurd h hs
      · rcases step_stop_or_meas_lt env ctx hinv hs with h2 | h2
        · exact ih _ hinv2 (Or.inl h2)
        · exact ih _ hinv2 (Or.inr (by omega))

theorem iterate_inv (env : DriverEnv) (n : Nat) :
    ctrlInv ((step env)^[n] initCtx) := by
  induction n with
  | zero => exact ctrlInv_init
  | succ n ih =>
    rw [Function.iterate_succ_apply']
    exact step_preserves_inv env _ ih

/-- C3: the loop executes at most 6 actions and then stops —
`should_stop` holds whenever 6 or more actions were executed; an ACT step
increments the counter by exactly one and moves to EVALUATE; an EVALUATE
step with `should_stop` moves to STOP; along every run from the initial
context the action counter never exceeds 6; and every run is in STOP after
at most 26 loop steps. -/
theorem control_loop_terminates (env : DriverEnv) :
    (∀ ctx : StateContext, 6 ≤ ctx.action_count → should_stop ctx = true)
    ∧ (∀ ctx : StateContext, ctx.current_state = .act →
        (step env ctx).action_count = ctx.action_count + 1
        ∧ (step env ctx).current_state = .evaluate)
    ∧ (∀ ctx : StateContext, ctx.current_state = .evaluate →
        should_stop ctx = true → (step env ctx).current_state = .stop)
    ∧ (∀ n : Nat, ((step env)^[n] initCtx).action_count ≤ 6)
    ∧ ((step env)^[26] initCtx).current_state = .stop := by
  refine ⟨?_, ?_, ?_, ?_, ?_⟩
  · intro ctx h6
    simp [should_stop, h6]
  · intro ctx hs
    constructor
    · simp [step, hs, log_action]
    · simp [step, hs, log_action]
  · intro ctx hs hstop
    have h6 : 6 ≤ ctx.action_count := by
      by_contra hcon
      simp [should_stop, hcon] at hstop
    simp [step, hs, should_stop, h6]
  · intro n
    exact (iterate_inv env n).2.1
  · exact reach_stop env 26 initCtx ctrlInv_init (Or.inr (by decide))

def trivEnv : DriverEnv :=
  { observe_state := fun _ => emptyPage
    propose := fun _ _ => []
    act_success := fun _ => true
    after_state := fun _ => emptyPage }

def ctxAtCeiling : StateContext := { current_state := .evaluate, action_count := 6 }

/-- Witness for C3: at a context that has executed 6 actions, `should_stop`
holds and the EVALUATE step moves to STOP; the concrete run under a trivial
environment is in STOP by step 26. -/
theorem control_loop_terminates_witness :
    should_stop ctxAtCeiling = true
    ∧ (step trivEnv ctxAtCeiling).current_state = .stop
    ∧ ((step trivEnv)^[26] initCtx).current_state = .stop := by
  have h := control_loop_terminates trivEnv
  exact ⟨h.1 ctxAtCeiling (by decide),
    h.2.2.1 ctxAtCeiling rfl (h.1 ctxAtCeiling (by decide)), h.2.2.2.2⟩

theorem step_preserves_count_len (env : DriverEnv) (ctx : StateContext)
    (h : ctx.action_count = ctx.action_history.length) :
    (step env ctx).action_count = (step env ctx).action_history.length := by
  cases hs : ctx.current_state
  case idle => simpa [step, hs] using h
  case stop => simpa [step, hs] using h
  case observe => simpa [step, hs] using h
  case decide =>
    rcases hd : decide_next_action env (ctx.page_data.getD emptyPage)
        ctx.action_history with _ | a <;> simpa [step, hs, hd] using h
  case act => simp [step, hs, log_action, h]
  case evaluate =>
    by_cases h6 : 6 ≤ ctx.action_count <;>
      simpa [step, hs, should_stop, h6] using h

/-- C10: in every reachable run context the executed-action counter equals
the length of the action history — both start at zero and `log_action`, the
only mutator of either, appends exactly one history entry and increments
the counter by exactly one. -/
theorem action_count_eq_history_length :
    (∀ (ctx : StateContext) (a : ChosenAction),
      (log_action ctx a).action_count = ctx.action_count + 1
      ∧ (log_action ctx a).action_history = ctx.action_history ++ [a])
    ∧ initCtx.action_count = 0 ∧ initCtx.action_history = []
    ∧ ∀ (env : DriverEnv) (n : Nat),
        ((step env)^[n] initCtx).action_count
          = ((step env)^[n] initCtx).action_history.length := by
  refine ⟨fun ctx a => ⟨rfl, rfl⟩, rfl, rfl, fun env n => ?_⟩
  induction n with
  | zero => rfl
  | succ n ih =>
    rw [Function.iterate_succ_apply']
    exact step_preserves_count_len env _ ih
